import Mathlib

/-!
Verification development for the induction-motor estimator library
(`fp_pid.c` / `fp_pid.h`, `im_estimators.c` / `im_estimators.h`).

Modelling conventions:
* C `float` values are modelled as exact rationals (`ℚ`); every claim treated
  here is about sequencing, data flow, frame conditions or exact algebraic
  identities, and every concrete evaluation below uses inputs whose float
  computations are exact (small dyadic rationals).
* Each C function mutating a record through a pointer becomes a pure Lean
  function from the record to the updated record; the C statement order is
  reproduced by `let` bindings.
* The stored function pointers (`m_calc`, `m_rst`, `m_init`) are data the
  arithmetic never reads or writes; they are modelled as `Nat` fields
  (standing for the stored code address).  The library only ever assigns them
  through the `*_DEFAULTS` initializers, which wire them to the corresponding
  functions of this file, so pointer dispatch is modelled as a direct call.
* `atan2f` and `hypotf` come from `math.h`, outside this repository; they are
  abstracted as explicit function parameters `ℚ → ℚ → ℚ`.
-/

namespace IMEst

/-- `tP` from fp_pid.h: floating point P controller record. -/
structure tP where
  fIn : ℚ
  fUpOutLim : ℚ
  fLowOutLim : ℚ
  fKp : ℚ
  fOut : ℚ
  m_calc : Nat
  m_rst : Nat
  deriving DecidableEq, Repr

/-- `tPI` from fp_pid.h: floating point PI controller record. -/
structure tPI where
  fDtSec : ℚ
  fIn : ℚ
  fKp : ℚ
  fKi : ℚ
  fUpOutLim : ℚ
  fLowOutLim : ℚ
  fPout : ℚ
  fIout : ℚ
  fIprevIn : ℚ
  fIprevOut : ℚ
  fOut : ℚ
  m_calc : Nat
  m_rst : Nat
  deriving DecidableEq, Repr

/-- `tPD` from fp_pid.h: floating point PD controller record. -/
structure tPD where
  fDtSec : ℚ
  fIn : ℚ
  fKp : ℚ
  fKd : ℚ
  fUpOutLim : ℚ
  fLowOutLim : ℚ
  fPout : ℚ
  fDout : ℚ
  fDprevIn : ℚ
  fDprevOut : ℚ
  fOut : ℚ
  m_calc : Nat
  m_rst : Nat
  deriving DecidableEq, Repr

/-- `tPID` from fp_pid.h: floating point PID controller record. -/
structure tPID where
  fDtSec : ℚ
  fIn : ℚ
  fKp : ℚ
  fKi : ℚ
  fKd : ℚ
  fUpOutLim : ℚ
  fLowOutLim : ℚ
  fPout : ℚ
  fIout : ℚ
  fDout : ℚ
  fIprevIn : ℚ
  fIprevOut : ℚ
  fDprevIn : ℚ
  fDprevOut : ℚ
  fOut : ℚ
  m_calc : Nat
  m_rst : Nat
  deriving DecidableEq, Repr

/-- `tP_calc` from fp_pid.c lines 55-63. -/
def tP_calc (s : tP) : tP :=
  let fPreOut := s.fIn * s.fKp
  let fPreOut := if fPreOut > s.fUpOutLim then s.fUpOutLim else fPreOut
  let fPreOut := if fPreOut < s.fLowOutLim then s.fLowOutLim else fPreOut
  { s with fOut := fPreOut }

/-- `tP_rst` from fp_pid.c lines 70-74. -/
def tP_rst (s : tP) : tP :=
  { s with fIn := 0, fOut := 0 }

/-- `tPI_calc` from fp_pid.c lines 81-98, statement by statement:
the integral update reads the histories `fIprevOut`, `fIprevIn` held on
entry and then overwrites them; note the source stores `fPout` (not
`fPout*fKi`) into `fIprevIn`. -/
def tPI_calc (s : tPI) : tPI :=
  let fPout := s.fIn * s.fKp
  let fIout := s.fIprevOut + (1/2) * s.fDtSec * (fPout * s.fKi + s.fIprevIn)
  let fPreOut := fPout + fIout
  let fPreOut := if fPreOut > s.fUpOutLim then s.fUpOutLim else fPreOut
  let fPreOut := if fPreOut < s.fLowOutLim then s.fLowOutLim else fPreOut
  { s with fPout := fPout, fIout := fIout,
           fIprevIn := fPout, fIprevOut := fIout, fOut := fPreOut }

/-- `tPI_rst` from fp_pid.c lines 105-113. -/
def tPI_rst (s : tPI) : tPI :=
  { s with fIn := 0, fIout := 0, fIprevIn := 0, fIprevOut := 0,
           fOut := 0, fPout := 0 }

/-- `tPD_calc` from fp_pid.c lines 120-136. -/
def tPD_calc (s : tPD) : tPD :=
  let fPout := s.fIn * s.fKp
  let fDout := (fPout * s.fKd - s.fDprevIn) / s.fDtSec
  let fPreOut := fPout + fDout
  let fPreOut := if fPreOut > s.fUpOutLim then s.fUpOutLim else fPreOut
  let fPreOut := if fPreOut < s.fLowOutLim then s.fLowOutLim else fPreOut
  { s with fPout := fPout, fDout := fDout,
           fDprevIn := fPout, fDprevOut := fDout, fOut := fPreOut }

/-- `tPD_rst` from fp_pid.c lines 143-151. -/
def tPD_rst (s : tPD) : tPD :=
  { s with fDout := 0, fDprevIn := 0, fDprevOut := 0,
           fIn := 0, fOut := 0, fPout := 0 }

/-- `tPID_calc` from fp_pid.c lines 158-179. -/
def tPID_calc (s : tPID) : tPID :=
  let fPout := s.fIn * s.fKp
  let fIout := s.fIprevOut + (1/2) * s.fDtSec * (fPout * s.fKi + s.fIprevIn)
  let fDout := (fPout * s.fKd - s.fDprevIn) / s.fDtSec
  let fPreOut := fPout + fIout + fDout
  let fPreOut := if fPreOut > s.fUpOutLim then s.fUpOutLim else fPreOut
  let fPreOut := if fPreOut < s.fLowOutLim then s.fLowOutLim else fPreOut
  { s with fPout := fPout, fIout := fIout, fDout := fDout,
           fIprevIn := fPout, fIprevOut := fIout,
           fDprevIn := fPout, fDprevOut := fDout, fOut := fPreOut }

/-- `tPID_rst` from fp_pid.c lines 186-197. -/
def tPID_rst (s : tPID) : tPID :=
  { s with fDout := 0, fDprevIn := 0, fDprevOut := 0, fIn := 0,
           fIout := 0, fIprevIn := 0, fIprevOut := 0, fOut := 0, fPout := 0 }

/-- `PI_DEFAULTS` from fp_pid.h lines 157-171 (pointer fields stand for the
addresses of `tPI_calc` / `tPI_rst`). -/
def PI_DEFAULTS : tPI :=
  { fDtSec := 1, fIn := 0, fKp := 0, fKi := 0, fUpOutLim := 0, fLowOutLim := 0,
    fPout := 0, fIout := 0, fIprevIn := 0, fIprevOut := 0, fOut := 0,
    m_calc := 0, m_rst := 0 }

/-- `tIMparams` from im_estimators.h: machine-parameter record. -/
structure tIMparams where
  fDt : ℚ
  fNpP : ℚ
  fRs : ℚ
  fRr : ℚ
  fLs : ℚ
  fLr : ℚ
  fLm : ℚ
  f1divTr : ℚ
  f1divKr : ℚ
  fSigLs : ℚ
  m_init : Nat
  deriving DecidableEq, Repr

/-- `tIMstatObs` from im_estimators.h: stator back-EMF observer record. -/
structure tIMstatObs where
  fIsAl : ℚ
  fIsBe : ℚ
  fUsAl : ℚ
  fUsBe : ℚ
  fPrevIsAl : ℚ
  fPrevIsBe : ℚ
  fEsAl : ℚ
  fEsBe : ℚ
  m_calc : Nat
  deriving DecidableEq, Repr

/-- `tIMrotObs` from im_estimators.h: rotor flux & back-EMF observer record. -/
structure tIMrotObs where
  fIsAl : ℚ
  fIsBe : ℚ
  fWrE : ℚ
  fPrevErAl : ℚ
  fPrevErBe : ℚ
  fPrevFrAl : ℚ
  fPrevFrBe : ℚ
  fFrAl : ℚ
  fFrBe : ℚ
  fErAl : ℚ
  fErBe : ℚ
  m_calc : Nat
  deriving DecidableEq, Repr

/-- `tIMspeedObs` from im_estimators.h: sensorless speed & flux observer
record, owning its two sub-observers and a PI controller. -/
structure tIMspeedObs where
  fUsAl : ℚ
  fUsBe : ℚ
  fIsAl : ℚ
  fIsBe : ℚ
  sIMstatObs : tIMstatObs
  sIMrotObs : tIMrotObs
  sPI : tPI
  fWrE : ℚ
  fFrAng : ℚ
  fFrMagn : ℚ
  m_calc : Nat
  deriving DecidableEq, Repr

/-- `tIMparams_init` from im_estimators.c lines 54-60: writes the three
derived coefficients from the physical constants. -/
def tIMparams_init (p : tIMparams) : tIMparams :=
  { p with
    f1divTr := p.fRr / p.fLr
    f1divKr := p.fLr / p.fLm
    fSigLs := (1 - p.fLm * p.fLm / (p.fLs * p.fLr)) * p.fLs }

/-- `tIMstatObs_calc` from im_estimators.c lines 68-83: backward-difference
derivative from the entry history, then back-EMF per axis. -/
def tIMstatObs_calc (s : tIMstatObs) (p : tIMparams) : tIMstatObs :=
  let fDiffIsAl := (s.fIsAl - s.fPrevIsAl) / p.fDt
  let fDiffIsBe := (s.fIsBe - s.fPrevIsBe) / p.fDt
  { s with
    fPrevIsAl := s.fIsAl
    fPrevIsBe := s.fIsBe
    fEsAl := (s.fUsAl - p.fRs * s.fIsAl - p.fSigLs * fDiffIsAl) * p.f1divKr
    fEsBe := (s.fUsBe - p.fRs * s.fIsBe - p.fSigLs * fDiffIsBe) * p.f1divKr }

/-- `tIMrotObs_calc` from im_estimators.c lines 91-108, keeping the exact C
statement order: the alpha block runs first and overwrites `fFrAl`
(line 96) before the beta back-EMF (line 101-102) reads `fFrAl` for its
cross term, while the alpha back-EMF read `fFrBe` before the beta block
overwrites it. -/
def tIMrotObs_calc (s : tIMrotObs) (p : tIMparams) : tIMrotObs :=
  let fErAl := (s.fIsAl * p.fLm - s.fFrAl) * p.f1divTr - s.fWrE * s.fFrBe
  let fFrAl := s.fPrevFrAl + (1/2) * p.fDt * (fErAl + s.fPrevErAl)
  let fErBe := (s.fIsBe * p.fLm - s.fFrBe) * p.f1divTr + s.fWrE * fFrAl
  let fFrBe := s.fPrevFrBe + (1/2) * p.fDt * (fErBe + s.fPrevErBe)
  { s with
    fErAl := fErAl, fFrAl := fFrAl, fPrevErAl := fErAl, fPrevFrAl := fFrAl,
    fErBe := fErBe, fFrBe := fFrBe, fPrevErBe := fErBe, fPrevFrBe := fFrBe }

/-- Variant of the rotor observer following the specification's words for the
cross-coupling term: each axis's cross term reads the partner flux as held on
entry to the call (the previous call's value), with everything else as in
`tIMrotObs_calc`.  Used only to compare against the source semantics. -/
def tIMrotObs_calcSpecPrevCross (s : tIMrotObs) (p : tIMparams) : tIMrotObs :=
  let fErAl := (s.fIsAl * p.fLm - s.fFrAl) * p.f1divTr - s.fWrE * s.fFrBe
  let fFrAl := s.fPrevFrAl + (1/2) * p.fDt * (fErAl + s.fPrevErAl)
  let fErBe := (s.fIsBe * p.fLm - s.fFrBe) * p.f1divTr + s.fWrE * s.fFrAl
  let fFrBe := s.fPrevFrBe + (1/2) * p.fDt * (fErBe + s.fPrevErBe)
  { s with
    fErAl := fErAl, fFrAl := fFrAl, fPrevErAl := fErAl, fPrevFrAl := fFrAl,
    fErBe := fErBe, fFrBe := fFrBe, fPrevErBe := fErBe, fPrevFrBe := fFrBe }

/-- The same C statements as `tIMrotObs_calc` but with the beta block executed
before the alpha block (mirror-image order), used only to test whether the
per-call result is independent of the axis evaluation order. -/
def tIMrotObs_calcBetaFirst (s : tIMrotObs) (p : tIMparams) : tIMrotObs :=
  let fErBe := (s.fIsBe * p.fLm - s.fFrBe) * p.f1divTr + s.fWrE * s.fFrAl
  let fFrBe := s.fPrevFrBe + (1/2) * p.fDt * (fErBe + s.fPrevErBe)
  let fErAl := (s.fIsAl * p.fLm - s.fFrAl) * p.f1divTr - s.fWrE * fFrBe
  let fFrAl := s.fPrevFrAl + (1/2) * p.fDt * (fErAl + s.fPrevErAl)
  { s with
    fErAl := fErAl, fFrAl := fFrAl, fPrevErAl := fErAl, fPrevFrAl := fFrAl,
    fErBe := fErBe, fFrBe := fFrBe, fPrevErBe := fErBe, fPrevFrBe := fFrBe }

/-- `tIMspeedObs_calc` from im_estimators.c lines 116-145.  `fAtan2` and
`fHypot` abstract `atan2f` / `hypotf` from math.h, applied in the source's
argument order (beta component first). -/
def tIMspeedObs_calc (fAtan2 fHypot : ℚ → ℚ → ℚ)
    (s : tIMspeedObs) (p : tIMparams) : tIMspeedObs :=
  let stat0 : tIMstatObs :=
    { s.sIMstatObs with fUsAl := s.fUsAl, fUsBe := s.fUsBe,
                        fIsAl := s.fIsAl, fIsBe := s.fIsBe }
  let rot0 : tIMrotObs :=
    { s.sIMrotObs with fIsAl := s.fIsAl, fIsBe := s.fIsBe, fWrE := s.fWrE }
  let stat1 := tIMstatObs_calc stat0 p
  let rot1 := tIMrotObs_calc rot0 p
  let pi0 : tPI :=
    { s.sPI with fIn := s.fIsAl * (stat1.fEsBe - rot1.fErBe)
                      - s.fIsBe * (stat1.fEsAl - rot1.fErAl) }
  let pi1 := tPI_calc pi0
  { s with
    sIMstatObs := stat1
    sIMrotObs := rot1
    sPI := pi1
    fWrE := pi1.fOut
    fFrAng := fAtan2 rot1.fFrBe rot1.fFrAl
    fFrMagn := fHypot rot1.fFrBe rot1.fFrAl }

/-- `IM_STAT_OBS_DEFAULTS` from im_estimators.h lines 167-177. -/
def IM_STAT_OBS_DEFAULTS : tIMstatObs :=
  { fIsAl := 0, fIsBe := 0, fUsAl := 0, fUsBe := 0,
    fPrevIsAl := 0, fPrevIsBe := 0, fEsAl := 0, fEsBe := 0, m_calc := 0 }

/-- `IM_ROT_OBS_DEFAULTS` from im_estimators.h lines 182-195. -/
def IM_ROT_OBS_DEFAULTS : tIMrotObs :=
  { fIsAl := 0, fIsBe := 0, fWrE := 0,
    fPrevErAl := 0, fPrevErBe := 0, fPrevFrAl := 0, fPrevFrBe := 0,
    fFrAl := 0, fFrBe := 0, fErAl := 0, fErBe := 0, m_calc := 0 }

/-- `IM_SPEED_OBS_DEFAULTS` from im_estimators.h lines 200-212. -/
def IM_SPEED_OBS_DEFAULTS : tIMspeedObs :=
  { fUsAl := 0, fUsBe := 0, fIsAl := 0, fIsBe := 0,
    sIMstatObs := IM_STAT_OBS_DEFAULTS,
    sIMrotObs := IM_ROT_OBS_DEFAULTS,
    sPI := PI_DEFAULTS,
    fWrE := 0, fFrAng := 0, fFrMagn := 0, m_calc := 0 }

/-- Write a new measured sample into the four input fields of the speed
observer record, as the caller does between two `tIMspeedObs_calc` calls. -/
def setIMspeedObsInputs (s : tIMspeedObs) (u v i j : ℚ) : tIMspeedObs :=
  { s with fUsAl := u, fUsBe := v, fIsAl := i, fIsBe := j }

/-- One replay step: load one (voltage, current) sample and run
`tIMspeedObs_calc`. -/
def speedObsStep (fAtan2 fHypot : ℚ → ℚ → ℚ) (p : tIMparams)
    (s : tIMspeedObs) (inp : ℚ × ℚ × ℚ × ℚ) : tIMspeedObs :=
  tIMspeedObs_calc fAtan2 fHypot
    (setIMspeedObsInputs s inp.1 inp.2.1 inp.2.2.1 inp.2.2.2) p

/-- Replay an ordered sample sequence through the speed observer, collecting
the (speed estimate, flux angle, flux magnitude) output after each call. -/
def speedObsRun (fAtan2 fHypot : ℚ → ℚ → ℚ) (p : tIMparams)
    (s : tIMspeedObs) : List (ℚ × ℚ × ℚ × ℚ) → List (ℚ × ℚ × ℚ)
  | [] => []
  | inp :: rest =>
    let s1 := speedObsStep fAtan2 fHypot p s inp
    (s1.fWrE, s1.fFrAng, s1.fFrMagn) :: speedObsRun fAtan2 fHypot p s1 rest

/-- Hold the constant input `x` for `n` samples of the PI controller,
starting from the given state. -/
def piHold (x : ℚ) : Nat → tPI → tPI
  | 0, s => s
  | Nat.succ n, s => piHold x n (tPI_calc { s with fIn := x })

/-- Unclamped PI output (proportional plus integral part, before limit
clamping) of the current state. -/
def piUnclamped (s : tPI) : ℚ := s.fPout + s.fIout

/-- A zero-reset PI state with the given sampling interval and gains
(`tPI_rst` applied to a configured record). -/
def piZeroState (dt kp ki up low : ℚ) : tPI :=
  tPI_rst { PI_DEFAULTS with fDtSec := dt, fKp := kp, fKi := ki,
                             fUpOutLim := up, fLowOutLim := low }

end IMEst

namespace IMEst

/-- C5: for each axis, `tIMstatObs_calc` outputs
backEMF = (voltage − Rs·current − leakageInductance·derivative)·inverseCouplingFactor
with the derivative (current − previousCurrent)/Δt taken from the history held
on entry, and on return the current history equals the input current. -/
theorem tIMstatObs_calc_spec (s : tIMstatObs) (p : tIMparams) :
    (tIMstatObs_calc s p).fEsAl
      = (s.fUsAl - p.fRs * s.fIsAl
          - p.fSigLs * ((s.fIsAl - s.fPrevIsAl) / p.fDt)) * p.f1divKr ∧
    (tIMstatObs_calc s p).fEsBe
      = (s.fUsBe - p.fRs * s.fIsBe
          - p.fSigLs * ((s.fIsBe - s.fPrevIsBe) / p.fDt)) * p.f1divKr ∧
    (tIMstatObs_calc s p).fPrevIsAl = s.fIsAl ∧
    (tIMstatObs_calc s p).fPrevIsBe = s.fIsBe :=
  ⟨rfl, rfl, rfl, rfl⟩

/-- C6: `tIMparams_init` writes exactly f1divTr = Rr/Lr, f1divKr = Lr/Lm and
fSigLs = (1 − Lm²/(Ls·Lr))·Ls, and leaves the seven physical constants and the
stored function pointer unchanged (the record has no other fields). -/
theorem tIMparams_init_spec (p : tIMparams) :
    (tIMparams_init p).f1divTr = p.fRr / p.fLr ∧
    (tIMparams_init p).f1divKr = p.fLr / p.fLm ∧
    (tIMparams_init p).fSigLs = (1 - p.fLm * p.fLm / (p.fLs * p.fLr)) * p.fLs ∧
    (tIMparams_init p).fDt = p.fDt ∧
    (tIMparams_init p).fNpP = p.fNpP ∧
    (tIMparams_init p).fRs = p.fRs ∧
    (tIMparams_init p).fRr = p.fRr ∧
    (tIMparams_init p).fLs = p.fLs ∧
    (tIMparams_init p).fLr = p.fLr ∧
    (tIMparams_init p).fLm = p.fLm ∧
    (tIMparams_init p).m_init = p.m_init :=
  ⟨rfl, rfl, rfl, rfl, rfl, rfl, rfl, rfl, rfl, rfl, rfl⟩

/-- C9: a second `tIMparams_init` call on the result of a first one (physical
constants unchanged in between) produces an identical record, writing
identical values of the three derived coefficients. -/
theorem tIMparams_init_idem (p : tIMparams) :
    tIMparams_init (tIMparams_init p) = tIMparams_init p :=
  rfl

/-- C7: for each of the P, PI and PID controllers, `rst` zeroes the input,
the output and every internal history field, and preserves the gains, the
output limits and the sampling interval. -/
theorem ctrl_rst_spec (a : tP) (b : tPI) (c : tPID) :
    (tP_rst a).fIn = 0 ∧ (tP_rst a).fOut = 0 ∧
    (tP_rst a).fKp = a.fKp ∧ (tP_rst a).fUpOutLim = a.fUpOutLim ∧
    (tP_rst a).fLowOutLim = a.fLowOutLim ∧
    (tPI_rst b).fIn = 0 ∧ (tPI_rst b).fOut = 0 ∧ (tPI_rst b).fPout = 0 ∧
    (tPI_rst b).fIout = 0 ∧ (tPI_rst b).fIprevIn = 0 ∧
    (tPI_rst b).fIprevOut = 0 ∧
    (tPI_rst b).fKp = b.fKp ∧ (tPI_rst b).fKi = b.fKi ∧
    (tPI_rst b).fUpOutLim = b.fUpOutLim ∧
    (tPI_rst b).fLowOutLim = b.fLowOutLim ∧ (tPI_rst b).fDtSec = b.fDtSec ∧
    (tPID_rst c).fIn = 0 ∧ (tPID_rst c).fOut = 0 ∧ (tPID_rst c).fPout = 0 ∧
    (tPID_rst c).fIout = 0 ∧ (tPID_rst c).fDout = 0 ∧
    (tPID_rst c).fIprevIn = 0 ∧ (tPID_rst c).fIprevOut = 0 ∧
    (tPID_rst c).fDprevIn = 0 ∧ (tPID_rst c).fDprevOut = 0 ∧
    (tPID_rst c).fKp = c.fKp ∧ (tPID_rst c).fKi = c.fKi ∧
    (tPID_rst c).fKd = c.fKd ∧ (tPID_rst c).fUpOutLim = c.fUpOutLim ∧
    (tPID_rst c).fLowOutLim = c.fLowOutLim ∧ (tPID_rst c).fDtSec = c.fDtSec :=
  ⟨rfl, rfl, rfl, rfl, rfl, rfl, rfl, rfl, rfl, rfl, rfl, rfl, rfl, rfl, rfl,
   rfl, rfl, rfl, rfl, rfl, rfl, rfl, rfl, rfl, rfl, rfl, rfl, rfl, rfl, rfl,
   rfl⟩

/-- C10: every `tIMrotObs_calc` call leaves the history fields equal to the
outputs it just produced, and every `tIMstatObs_calc` call leaves the current
history equal to the current inputs — for every state, hence in particular in
every state reachable from the zero-initialized one. -/
theorem obs_calc_history_inv (s : tIMrotObs) (t : tIMstatObs) (p : tIMparams) :
    (tIMrotObs_calc s p).fPrevFrAl = (tIMrotObs_calc s p).fFrAl ∧
    (tIMrotObs_calc s p).fPrevFrBe = (tIMrotObs_calc s p).fFrBe ∧
    (tIMrotObs_calc s p).fPrevErAl = (tIMrotObs_calc s p).fErAl ∧
    (tIMrotObs_calc s p).fPrevErBe = (tIMrotObs_calc s p).fErBe ∧
    (tIMstatObs_calc t p).fPrevIsAl = (tIMstatObs_calc t p).fIsAl ∧
    (tIMstatObs_calc t p).fPrevIsBe = (tIMstatObs_calc t p).fIsBe :=
  ⟨rfl, rfl, rfl, rfl, rfl, rfl⟩

end IMEst

namespace IMEst

/-- C2: within one `tIMspeedObs_calc` call, the Rotor Observer runs on the
speed-estimate field as held on entry (the resulting rotor state is exactly
`tIMrotObs_calc` of the entry history loaded with the measured currents and
the entry speed, whose own speed field stays that entry value), and across
two consecutive calls (with arbitrary new measured inputs in between) the
speed consumed by the second call's Rotor Observer equals the controller
output produced by the first call — a one-sample-delayed feedback loop. -/
theorem speedObs_one_sample_delay (fAtan2 fHypot : ℚ → ℚ → ℚ)
    (s : tIMspeedObs) (p : tIMparams) (u v i j : ℚ) :
    (tIMspeedObs_calc fAtan2 fHypot s p).sIMrotObs
      = tIMrotObs_calc
          { s.sIMrotObs with fIsAl := s.fIsAl, fIsBe := s.fIsBe,
                             fWrE := s.fWrE } p ∧
    (tIMspeedObs_calc fAtan2 fHypot s p).sIMrotObs.fWrE = s.fWrE ∧
    (tIMspeedObs_calc fAtan2 fHypot
        (setIMspeedObsInputs (tIMspeedObs_calc fAtan2 fHypot s p) u v i j)
        p).sIMrotObs.fWrE
      = (tIMspeedObs_calc fAtan2 fHypot s p).fWrE :=
  ⟨rfl, rfl, rfl⟩

/-- C4: after one `tIMspeedObs_calc` call, the controller input equals
IsAlpha·(statorBackEMFbeta − rotorBackEMFbeta) − IsBeta·(statorBackEMFalpha −
rotorBackEMFalpha) over the back-EMF values the two sub-observers produced in
this call; the stored PI state is the controller's `compute` on that input;
the clamped controller output is the new speed estimate; and flux angle and
magnitude are `atan2f`/`hypotf` of (rotorFluxBeta, rotorFluxAlpha) from this
call's rotor flux. -/
theorem speedObs_outputs_spec (fAtan2 fHypot : ℚ → ℚ → ℚ)
    (s : tIMspeedObs) (p : tIMparams) :
    (tIMspeedObs_calc fAtan2 fHypot s p).sPI.fIn
      = s.fIsAl * ((tIMspeedObs_calc fAtan2 fHypot s p).sIMstatObs.fEsBe
                    - (tIMspeedObs_calc fAtan2 fHypot s p).sIMrotObs.fErBe)
        - s.fIsBe * ((tIMspeedObs_calc fAtan2 fHypot s p).sIMstatObs.fEsAl
                    - (tIMspeedObs_calc fAtan2 fHypot s p).sIMrotObs.fErAl) ∧
    (tIMspeedObs_calc fAtan2 fHypot s p).sPI
      = tPI_calc { s.sPI with
          fIn := (tIMspeedObs_calc fAtan2 fHypot s p).sPI.fIn } ∧
    (tIMspeedObs_calc fAtan2 fHypot s p).fWrE
      = (tIMspeedObs_calc fAtan2 fHypot s p).sPI.fOut ∧
    (tIMspeedObs_calc fAtan2 fHypot s p).fFrAng
      = fAtan2 (tIMspeedObs_calc fAtan2 fHypot s p).sIMrotObs.fFrBe
               (tIMspeedObs_calc fAtan2 fHypot s p).sIMrotObs.fFrAl ∧
    (tIMspeedObs_calc fAtan2 fHypot s p).fFrMagn
      = fHypot (tIMspeedObs_calc fAtan2 fHypot s p).sIMrotObs.fFrBe
               (tIMspeedObs_calc fAtan2 fHypot s p).sIMrotObs.fFrAl :=
  ⟨rfl, rfl, rfl, rfl, rfl⟩

/-- C8: replaying one identical ordered sample sequence, with one fixed
machine-parameter record, into two freshly default-constructed speed-observer
states yields identical (speed, flux angle, flux magnitude) output sequences:
the replay is a pure function of the state record and the inputs. -/
theorem speedObsRun_deterministic (fAtan2 fHypot : ℚ → ℚ → ℚ)
    (p : tIMparams) (samples : List (ℚ × ℚ × ℚ × ℚ)) (s1 s2 : tIMspeedObs)
    (h1 : s1 = IM_SPEED_OBS_DEFAULTS) (h2 : s2 = IM_SPEED_OBS_DEFAULTS) :
    speedObsRun fAtan2 fHypot p s1 samples
      = speedObsRun fAtan2 fHypot p s2 samples := by
  subst h1; subst h2; rfl

/-- Witness for C8 at a concrete parameter record and two-sample replay. -/
theorem speedObsRun_deterministic_witness :
    speedObsRun (fun _ _ => 0) (fun _ _ => 0)
      { fDt := 1, fNpP := 1, fRs := 0, fRr := 1, fLs := 1, fLr := 1, fLm := 1,
        f1divTr := 1, f1divKr := 1, fSigLs := 0, m_init := 0 }
      IM_SPEED_OBS_DEFAULTS [(1, 0, 1, 0), (1, 0, 1, 0)]
    = speedObsRun (fun _ _ => 0) (fun _ _ => 0)
      { fDt := 1, fNpP := 1, fRs := 0, fRr := 1, fLs := 1, fLr := 1, fLm := 1,
        f1divTr := 1, f1divKr := 1, fSigLs := 0, m_init := 0 }
      IM_SPEED_OBS_DEFAULTS [(1, 0, 1, 0), (1, 0, 1, 0)] :=
  speedObsRun_deterministic (fun _ _ => 0) (fun _ _ => 0)
    { fDt := 1, fNpP := 1, fRs := 0, fRr := 1, fLs := 1, fLr := 1, fLm := 1,
      f1divTr := 1, f1divKr := 1, fSigLs := 0, m_init := 0 }
    [(1, 0, 1, 0), (1, 0, 1, 0)] IM_SPEED_OBS_DEFAULTS IM_SPEED_OBS_DEFAULTS
    rfl rfl

/-- C1 (counterexample): at a concrete state and parameter record, the rotor
observer's beta back-EMF differs from the value obtained when each axis's
cross term reads the partner flux held on entry (the previous call's value),
and also differs from the value obtained by running the same statements with
the beta block first — so the cross term does not always read the previous
call's flux, and the per-call result depends on the axis evaluation order. -/
theorem rotObs_prevCross_counterexample :
    (tIMrotObs_calc
      { fIsAl := 1, fIsBe := 0, fWrE := 1, fPrevErAl := 0, fPrevErBe := 0,
        fPrevFrAl := 0, fPrevFrBe := 0, fFrAl := 0, fFrBe := 0,
        fErAl := 0, fErBe := 0, m_calc := 0 }
      { fDt := 1, fNpP := 1, fRs := 0, fRr := 1, fLs := 1, fLr := 1, fLm := 1,
        f1divTr := 1, f1divKr := 1, fSigLs := 0, m_init := 0 }).fErBe
      ≠ (tIMrotObs_calcSpecPrevCross
      { fIsAl := 1, fIsBe := 0, fWrE := 1, fPrevErAl := 0, fPrevErBe := 0,
        fPrevFrAl := 0, fPrevFrBe := 0, fFrAl := 0, fFrBe := 0,
        fErAl := 0, fErBe := 0, m_calc := 0 }
      { fDt := 1, fNpP := 1, fRs := 0, fRr := 1, fLs := 1, fLr := 1, fLm := 1,
        f1divTr := 1, f1divKr := 1, fSigLs := 0, m_init := 0 }).fErBe ∧
    (tIMrotObs_calc
      { fIsAl := 1, fIsBe := 0, fWrE := 1, fPrevErAl := 0, fPrevErBe := 0,
        fPrevFrAl := 0, fPrevFrBe := 0, fFrAl := 0, fFrBe := 0,
        fErAl := 0, fErBe := 0, m_calc := 0 }
      { fDt := 1, fNpP := 1, fRs := 0, fRr := 1, fLs := 1, fLr := 1, fLm := 1,
        f1divTr := 1, f1divKr := 1, fSigLs := 0, m_init := 0 }).fErBe
      ≠ (tIMrotObs_calcBetaFirst
      { fIsAl := 1, fIsBe := 0, fWrE := 1, fPrevErAl := 0, fPrevErBe := 0,
        fPrevFrAl := 0, fPrevFrBe := 0, fFrAl := 0, fFrBe := 0,
        fErAl := 0, fErBe := 0, m_calc := 0 }
      { fDt := 1, fNpP := 1, fRs := 0, fRr := 1, fLs := 1, fLr := 1, fLm := 1,
        f1divTr := 1, f1divKr := 1, fSigLs := 0, m_init := 0 }).fErBe := by
  constructor <;>
    norm_num [tIMrotObs_calc, tIMrotObs_calcSpecPrevCross,
      tIMrotObs_calcBetaFirst]

/-- C1 (amended): alpha's cross term reads the beta flux held on entry to the
call (beta's flux is only overwritten after alpha's block), while beta's
cross term reads the alpha flux already updated within the same call. -/
theorem rotObs_cross_coupling_reads (s : tIMrotObs) (p : tIMparams) :
    (tIMrotObs_calc s p).fErAl
      = (s.fIsAl * p.fLm - s.fFrAl) * p.f1divTr - s.fWrE * s.fFrBe ∧
    (tIMrotObs_calc s p).fErBe
      = (s.fIsBe * p.fLm - s.fFrBe) * p.f1divTr
        + s.fWrE * (tIMrotObs_calc s p).fFrAl :=
  ⟨rfl, rfl⟩

/-- C3: holding the constant input x = 1 for n = 2 samples from a zero-reset
PI state with Δt = 1, Kp = 1, Ki = 2, the unclamped output `fPout + fIout`
computed by the source recurrence is 7/2, whereas the trapezoidal
closed form Kp·x + Ki·Kp·x·Δt·(n − 1/2) gives 4: the source stores `fPout`
instead of the integral link's input `fPout·fKi` as `fIprevIn`. -/
theorem tPI_trapezoid_closed_form_fails :
    piUnclamped (piHold 1 2 (piZeroState 1 1 2 0 0)) = 7/2 ∧
    (1 : ℚ) * 1 + 2 * 1 * 1 * 1 * ((2 : ℚ) - 1/2) = 4 ∧
    (7/2 : ℚ) ≠ 4 := by
  refine ⟨?_, by norm_num, by norm_num⟩
  norm_num [piHold, piZeroState, PI_DEFAULTS, tPI_rst, tPI_calc, piUnclamped]

end IMEst
